import Mathlib

/-!
Verification of the session state machine and AI-orchestration layer of the
smart-farming advisory application (src/app.py), as a shallow embedding:
pure fragments of the Python code become Lean functions, the Streamlit
session state becomes an explicit state type with a step function over user
actions, and external services (geocoding, weather, chat completion) are
passed in as explicit oracle inputs so that "performs an external call" is
observable in the model.
-/

namespace SmartFarm

/-- Weather snapshot cached in session state, as built by fetch_weather
(src/app.py lines 160-165): rounded temperature, humidity passed through,
description and icon captured verbatim. -/
structure WeatherSnapshot where
  temp : ℤ
  humidity : ℤ
  description : String
  icon : String
deriving DecidableEq

/-- User profile dict created by profile_setup_page (src/app.py lines 207-214). -/
structure Profile where
  full_name : String
  location : String
  farm_size : String
  primary_crops : String
  experience_level : String
  created_at : String
deriving DecidableEq

/-- Recommendation record appended by the advisory pages
(src/app.py lines 331-336, 379-384, 426-431). -/
structure Recommendation where
  type : String
  title : String
  response : String
  created_at : String
deriving DecidableEq

/-- Chat transcript entry (src/app.py lines 535, 559). -/
structure ChatMessage where
  role : String
  content : String
deriving DecidableEq

/-- Python round() on a rational: round half to even (banker's rounding),
modelling the call round(weather['main']['temp']) at src/app.py line 161. -/
def pyRound (q : ℚ) : ℤ :=
  if q - ⌊q⌋ < 1/2 then ⌊q⌋
  else if 1/2 < q - ⌊q⌋ then ⌊q⌋ + 1
  else if 2 ∣ ⌊q⌋ then ⌊q⌋ else ⌊q⌋ + 1

/-- pyRound always lands on a nearest integer: its distance to the argument
is at most one half. -/
theorem pyRound_nearest (q : ℚ) : |(pyRound q : ℚ) - q| ≤ 1/2 := by
  have h0 : (0:ℚ) ≤ q - ⌊q⌋ := by
    have := Int.floor_le q
    linarith
  have h1 : q - ⌊q⌋ < 1 := by
    have := Int.lt_floor_add_one q
    push_cast at *
    linarith
  unfold pyRound
  split_ifs with ha hb hc
  · rw [abs_le]
    constructor <;> linarith
  · rw [abs_le]
    push_cast
    constructor <;> linarith
  · rw [abs_le]
    have ha' : 1/2 ≤ q - ⌊q⌋ := not_lt.mp ha
    have hb' : q - ⌊q⌋ ≤ 1/2 := not_lt.mp hb
    constructor <;> linarith
  · rw [abs_le]
    have ha' : 1/2 ≤ q - ⌊q⌋ := not_lt.mp ha
    have hb' : q - ⌊q⌋ ≤ 1/2 := not_lt.mp hb
    push_cast
    constructor <;> linarith

/-- ASCII lower-casing of one character, the fragment of Python str.lower()
relevant to the fixed selectbox labels (which are pure ASCII). -/
def asciiLower (c : Char) : Char :=
  if 'A' ≤ c ∧ c ≤ 'Z' then Char.ofNat (c.toNat + 32) else c

/-- Python label.split()[0].lower() as used at src/app.py lines 210 and 212:
str.split() with no separator drops leading whitespace and cuts the first
token at the next whitespace; [0] takes that token, .lower() lower-cases it.
Python raises IndexError when the label has no token at all; the labels
reaching this code come from fixed selectbox option lists, which always have
one, so the model returns the empty string in that impossible case. -/
def pySplitFirstLower (label : String) : String :=
  ⟨((label.data.dropWhile Char.isWhitespace).takeWhile
      (fun c => !c.isWhitespace)).map asciiLower⟩

/-- Python str.strip(): drop leading and trailing whitespace. This is the
trimming notion the specification speaks about; the code itself never calls
it. -/
def pyStrip (s : String) : String :=
  ⟨((s.data.dropWhile Char.isWhitespace).reverse.dropWhile
      Char.isWhitespace).reverse⟩

/-- Farm-size options offered by the profile form (src/app.py line 199). -/
def farmSizeLabels : List String :=
  ["Small (< 5 acres)", "Medium (5-50 acres)", "Large (50-200 acres)",
   "Very Large (200+ acres)"]

/-- Experience options offered by the profile form (src/app.py line 201). -/
def experienceLabels : List String :=
  ["Beginner (0-2 years)", "Intermediate (3-10 years)", "Experienced (10+ years)"]

/-- Profile creation logic of profile_setup_page (src/app.py lines 205-219):
the Python guard is the truthiness test "if name and location", i.e. both
strings literally non-empty (no whitespace trimming); on success the category
fields are derived with split()[0].lower() and created_at is stamped with the
current time, passed here as the argument now. Returns none exactly when the
validation error branch runs. -/
def createProfile (name location farm_size crops experience now : String) :
    Option Profile :=
  if name ≠ "" ∧ location ≠ "" then
    some ⟨name, location, pySplitFirstLower farm_size, crops,
          pySplitFirstLower experience, now⟩
  else none

/-! Weather adapter (fetch_weather, src/app.py lines 142-167). The two
external HTTP requests are modelled as oracle inputs: the geocoding step is
an Option (List GeoPoint) where none stands for a network or JSON-parsing
failure (the bare except at line 166 swallows it) and the list is the parsed
geocoding response; the weather step is a function from the chosen
coordinates to an Option WeatherResponse with the same failure convention. -/

/-- One entry of the geocoding response (fields lat and lon,
src/app.py line 153). -/
structure GeoPoint where
  lat : ℚ
  lon : ℚ
deriving DecidableEq

/-- The main object of the weather response (fields temp and humidity,
src/app.py lines 161-162). -/
structure WeatherMain where
  temp : ℚ
  humidity : ℤ
deriving DecidableEq

/-- One entry of the weather list of the weather response (fields
description and icon, src/app.py lines 163-164). -/
structure WeatherCondition where
  description : String
  icon : String
deriving DecidableEq

/-- The parsed weather response (src/app.py lines 158-164). -/
structure WeatherResponse where
  main : WeatherMain
  weather : List WeatherCondition
deriving DecidableEq

/-- fetch_weather (src/app.py lines 142-167). The whole body sits in a
try/except returning None on any exception, so the function is total into
Option: an empty geocoding list returns none at line 151; a failed geocoding
or weather request returns none; a weather response whose weather list is
empty raises IndexError at line 163, caught into none. On success the
snapshot rounds the temperature with Python round, passes humidity through,
and copies description and icon verbatim. -/
def fetch_weather (geo : Option (List GeoPoint))
    (wreq : GeoPoint → Option WeatherResponse) : Option WeatherSnapshot :=
  match geo with
  | none => none
  | some [] => none
  | some (g :: _) =>
    match wreq g with
    | none => none
    | some w =>
      match w.weather with
      | [] => none
      | cond :: _ =>
        some ⟨pyRound w.main.temp, w.main.humidity, cond.description, cond.icon⟩

/-! Completion gateway (call_openai, src/app.py lines 120-140). The request
it builds is reified as a CompletionRequest value; the external call is an
oracle input Option CompletionResponse, where none stands for the exception
branch (lines 137-140), which shows an error and stops the script run. -/

/-- The fixed system instruction (src/app.py line 130). -/
def systemInstruction : String :=
  "You are a helpful and knowledgeable farming assistant. Provide practical, actionable advice for farmers. Be specific, detailed, and consider the farmer's unique situation."

/-- One chat message of the completion request or response. -/
structure ApiMessage where
  role : String
  content : String
deriving DecidableEq

/-- The request built by call_openai (src/app.py lines 127-135). -/
structure CompletionRequest where
  model : String
  messages : List ApiMessage
  temperature : ℚ
  max_tokens : ℕ
deriving DecidableEq

/-- One choice of the completion response. -/
structure Choice where
  message : ApiMessage
deriving DecidableEq

/-- The completion response (field choices, src/app.py line 136). -/
structure CompletionResponse where
  choices : List Choice
deriving DecidableEq

/-- The request call_openai sends for a given prompt
(src/app.py lines 127-135). -/
def openaiRequest (prompt : String) : CompletionRequest :=
  { model := "gpt-4o-mini"
    messages := [⟨"system", systemInstruction⟩, ⟨"user", prompt⟩]
    temperature := 7/10
    max_tokens := 2048 }

/-- The result call_openai returns for a given oracle response
(src/app.py lines 126-140): none models the exception branch ending in
st.stop(); a response with no choices raises IndexError at line 136, also
caught into the exception branch; otherwise the first choice's message
content is returned verbatim. -/
def call_openai (resp : Option CompletionResponse) : Option String :=
  match resp with
  | none => none
  | some r =>
    match r.choices with
    | [] => none
    | c :: _ => some c.message.content

/-! History and chat helpers. -/

/-- Python list.remove semantics (src/app.py line 575): remove the first
element structurally equal to the argument; none models the ValueError that
Python raises when no equal element exists. -/
def listRemove {α : Type} [DecidableEq α] (l : List α) (x : α) :
    Option (List α) :=
  match l with
  | [] => none
  | y :: ys => if y = x then some ys else (listRemove ys x).map (fun r => y :: r)

/-- One chat submission (chat_page, src/app.py lines 534-563): the user
message is appended first (line 535); result is the call_openai outcome,
none meaning the call raised and st.stop() ended the run with only the user
message recorded; a non-empty response appends one assistant message
(lines 558-559); a falsy response (empty string) appends nothing and only
shows a transient error (line 561). -/
def chatStep (history : List ChatMessage) (input : String)
    (result : Option String) : List ChatMessage :=
  let withUser := history ++ [⟨"user", input⟩]
  match result with
  | none => withUser
  | some r => if r ≠ "" then withUser ++ [⟨"assistant", r⟩] else withUser

/-- The weather block of dashboard_page (src/app.py lines 228-236), with the
external fetch_weather result passed as the oracle input fetch. Returns the
snapshot displayed on the page, the new cached value, and whether the
external fetch was performed: no profile or an empty location skips the
block entirely (line 230); an empty cache performs the fetch and caches a
non-None result (lines 231-234); a populated cache is returned as-is with no
fetch (lines 235-236). -/
def dashboardWeather (profile : Option Profile)
    (cache : Option WeatherSnapshot) (fetch : Option WeatherSnapshot) :
    Option WeatherSnapshot × Option WeatherSnapshot × Bool :=
  match profile with
  | none => (none, cache, false)
  | some p =>
    if p.location ≠ "" then
      match cache with
      | none => (fetch, fetch, true)
      | some w => (some w, some w, false)
    else (none, cache, false)

/-! Session state machine. The Streamlit session state (src/app.py
lines 104-114) becomes a record; every state-mutating user interaction of
the page handlers and the sidebar becomes an Action, with the outcomes of
external calls passed inside the action as oracle inputs. Buttons only
exist on the page that renders them, so each action is guarded by the
current page exactly as the routing at lines 645-667 dispatches. -/

/-- The page identifiers the router dispatches on (src/app.py
lines 645-667). -/
inductive Page where
  | welcome
  | profile_setup
  | dashboard
  | crop_planner
  | soil_optimizer
  | pest_identifier
  | weather_alerts
  | cost_tips
  | chat
  | history
  | settings
deriving DecidableEq

/-- The Streamlit session state (src/app.py lines 104-114). -/
structure SessionState where
  profile : Option Profile
  recommendations : List Recommendation
  chat_history : List ChatMessage
  weather_data : Option WeatherSnapshot
  current_page : Page
deriving DecidableEq

/-- The initial session state (src/app.py lines 104-114). -/
def initialState : SessionState :=
  { profile := none
    recommendations := []
    chat_history := []
    weather_data := none
    current_page := Page.welcome }

/-- The state-mutating user interactions. Oracle arguments: now stands for
datetime.now().isoformat(), result for the call_openai outcome (none when
the call raised and stopped the run), fetch for the fetch_weather outcome. -/
inductive Action where
  | getStarted
  | submitProfile (name location farm_size crops experience now : String)
  | navDashboard
  | navHistory
  | navChat
  | navSettings
  | gotoCropPlanner
  | gotoSoilOptimizer
  | gotoPestIdentifier
  | gotoCostTips
  | gotoWeatherAlerts
  | gotoChat
  | dashWeather (fetch : Option WeatherSnapshot)
  | cropSubmit (month weather soil : String) (result : Option String) (now : String)
  | soilSubmit (ph : ℚ) (soil_type : String) (problems : List String)
      (result : Option String) (now : String)
  | pestSubmit (crop symptoms : String) (result : Option String) (now : String)
  | chatSubmit (input : String) (result : Option String)
  | deleteRec (r : Recommendation)
  | settingsSave (name location crops : String)
  | clearChat
  | clearRecs
  | signOut

/-- One handled user action (src/app.py). Guards: the welcome button lives
at lines 178-180; profile submission at lines 205-219; the sidebar buttons
at lines 624-643 render only when a profile exists; the dashboard tool
buttons at lines 270-295 only on the dashboard; the advisory submissions at
lines 309-341, 354-389, 401-438 append a record only when call_openai
returned a non-empty response (a raised call stops the run before the
append); chat submission at lines 534-563; history deletion at
lines 574-576 (a ValueError aborts the run with the list unmutated);
settings actions at lines 581-615. -/
def step (s : SessionState) (a : Action) : SessionState :=
  match a with
  | .getStarted =>
    if s.current_page = Page.welcome then
      { s with current_page :=
          if s.profile.isNone then Page.profile_setup else Page.dashboard }
    else s
  | .submitProfile n l fs c e t =>
    if s.current_page = Page.profile_setup then
      match createProfile n l fs c e t with
      | some p => { s with profile := some p, current_page := Page.dashboard }
      | none => s
    else s
  | .navDashboard =>
    if s.profile.isSome then { s with current_page := Page.dashboard } else s
  | .navHistory =>
    if s.profile.isSome then { s with current_page := Page.history } else s
  | .navChat =>
    if s.profile.isSome then { s with current_page := Page.chat } else s
  | .navSettings =>
    if s.profile.isSome then { s with current_page := Page.settings } else s
  | .gotoCropPlanner =>
    if s.current_page = Page.dashboard then
      { s with current_page := Page.crop_planner }
    else s
  | .gotoSoilOptimizer =>
    if s.current_page = Page.dashboard then
      { s with current_page := Page.soil_optimizer }
    else s
  | .gotoPestIdentifier =>
    if s.current_page = Page.dashboard then
      { s with current_page := Page.pest_identifier }
    else s
  | .gotoCostTips =>
    if s.current_page = Page.dashboard then
      { s with current_page := Page.cost_tips }
    else s
  | .gotoWeatherAlerts =>
    if s.current_page = Page.dashboard then
      { s with current_page := Page.weather_alerts }
    else s
  | .gotoChat =>
    if s.current_page = Page.dashboard then
      { s with current_page := Page.chat }
    else s
  | .dashWeather fetch =>
    if s.current_page = Page.dashboard then
      { s with weather_data :=
          (dashboardWeather s.profile s.weather_data fetch).2.1 }
    else s
  | .cropSubmit month _ _ result t =>
    if s.current_page = Page.crop_planner then
      match result with
      | none => s
      | some r =>
        if r ≠ "" then
          { s with recommendations := s.recommendations ++
              [⟨"crop_planner", "Crop Recommendations for " ++ month, r, t⟩] }
        else s
    else s
  | .soilSubmit _ _ _ result t =>
    if s.current_page = Page.soil_optimizer then
      match result with
      | none => s
      | some r =>
        if r ≠ "" then
          { s with recommendations := s.recommendations ++
              [⟨"soil_optimizer", "Soil Health Analysis", r, t⟩] }
        else s
    else s
  | .pestSubmit crop symptoms result t =>
    if s.current_page = Page.pest_identifier then
      if crop ≠ "" ∧ symptoms ≠ "" then
        match result with
        | none => s
        | some r =>
          if r ≠ "" then
            { s with recommendations := s.recommendations ++
                [⟨"pest_identifier", "Pest Identification for " ++ crop, r, t⟩] }
          else s
      else s
    else s
  | .chatSubmit input result =>
    if s.current_page = Page.chat then
      { s with chat_history := chatStep s.chat_history input result }
    else s
  | .deleteRec r =>
    if s.current_page = Page.history then
      match listRemove s.recommendations r with
      | some l => { s with recommendations := l }
      | none => s
    else s
  | .settingsSave n l c =>
    if s.current_page = Page.settings then
      match s.profile with
      | some p =>
        let p2 := { p with full_name := n, location := l, primary_crops := c }
        { s with profile := some p2 }
      | none => s
    else s
  | .clearChat =>
    if s.current_page = Page.settings then { s with chat_history := [] } else s
  | .clearRecs =>
    if s.current_page = Page.settings then { s with recommendations := [] } else s
  | .signOut =>
    if s.current_page = Page.settings then
      { s with profile := none, current_page := Page.welcome }
    else s

/-- The session states reachable from the initial state under the defined
user actions. -/
inductive Reachable : SessionState → Prop where
  | init : Reachable initialState
  | next : ∀ s a, Reachable s → Reachable (step s a)

/-! Helper lemmas. -/

/-- Python list.remove finds nothing when the element is absent, so it
raises (modelled as none). -/
theorem listRemove_of_not_mem {α : Type} [DecidableEq α] :
    ∀ (l : List α) (x : α), x ∉ l → listRemove l x = none := by
  intro l x h
  induction l with
  | nil => rfl
  | cons y ys ih =>
    simp only [List.mem_cons, not_or] at h
    simp only [listRemove]
    rw [if_neg (fun he => h.1 he.symm), ih h.2]
    rfl

/-- Python list.remove removes exactly the first structurally-equal
occurrence. -/
theorem listRemove_first {α : Type} [DecidableEq α] :
    ∀ (l1 l2 : List α) (x : α), x ∉ l1 →
      listRemove (l1 ++ x :: l2) x = some (l1 ++ l2) := by
  intro l1 l2 x h
  induction l1 with
  | nil => simp [listRemove]
  | cons y ys ih =>
    simp only [List.mem_cons, not_or] at h
    simp only [List.cons_append, listRemove, List.append_eq]
    rw [if_neg (fun he => h.1 he.symm), ih h.2]
    rfl

/-! Claim theorems. -/

/-- Claim C1, counterexample: a whitespace-only name is empty after
trimming, so the claim requires profile creation to fail on it, but the
code's truthiness check (if name and location, src/app.py line 206) accepts
it and creates the profile. -/
theorem createProfile_trim_cex :
    pyStrip " " = "" ∧
    (createProfile " " "Austin" "Small (< 5 acres)" "Corn"
        "Beginner (0-2 years)" "2025-01-01").isSome = true := by
  decide

/-- Claim C1 (amended): profile creation fails with the validation error iff
the name or the location is literally the empty string (no whitespace
trimming is performed); for every pair of literally non-empty inputs it
succeeds, stores the Profile in the session, stamps created_at, and moves to
the dashboard. -/
theorem createProfile_validation (n l fs c e t : String) :
    (createProfile n l fs c e t = none ↔ n = "" ∨ l = "") ∧
    (∀ p, createProfile n l fs c e t = some p →
      p.full_name = n ∧ p.location = l ∧ p.created_at = t) ∧
    (∀ s : SessionState, s.current_page = Page.profile_setup →
      n ≠ "" → l ≠ "" →
      (step s (Action.submitProfile n l fs c e t)).profile =
        some ⟨n, l, pySplitFirstLower fs, c, pySplitFirstLower e, t⟩ ∧
      (step s (Action.submitProfile n l fs c e t)).current_page =
        Page.dashboard) := by
  refine ⟨?_, ?_, ?_⟩
  · constructor
    · intro hnone
      by_contra hc
      push_neg at hc
      simp [createProfile, hc.1, hc.2] at hnone
    · intro h
      have hne : ¬ (n ≠ "" ∧ l ≠ "") := by tauto
      simp [createProfile, hne]
  · intro p hp
    unfold createProfile at hp
    split_ifs at hp with h
    injection hp with hp
    subst hp
    exact ⟨rfl, rfl, rfl⟩
  · intro s hpage hn hl
    have hcp : createProfile n l fs c e t =
        some ⟨n, l, pySplitFirstLower fs, c, pySplitFirstLower e, t⟩ := by
      simp [createProfile, hn, hl]
    simp [step, hpage, hcp]

/-- Witness for claim C1's amended theorem at a concrete submission. -/
theorem createProfile_validation_witness :
    (step ⟨none, [], [], none, Page.profile_setup⟩
        (Action.submitProfile "Ann" "Austin" "Small (< 5 acres)" "Corn"
          "Beginner (0-2 years)" "2025-01-01")).profile =
      some ⟨"Ann", "Austin", "small", "Corn", "beginner", "2025-01-01"⟩ := by
  have h := (createProfile_validation "Ann" "Austin" "Small (< 5 acres)"
      "Corn" "Beginner (0-2 years)" "2025-01-01").2.2
    ⟨none, [], [], none, Page.profile_setup⟩ rfl (by decide) (by decide)
  rw [h.1]
  decide

/-- Claim C2, counterexample: the very-large farm-size label offered by the
form derives to the category very, which is not in the claimed set
containing very_large. -/
theorem profile_categories_cex :
    "Very Large (200+ acres)" ∈ farmSizeLabels ∧
    pySplitFirstLower "Very Large (200+ acres)" = "very" ∧
    pySplitFirstLower "Very Large (200+ acres)" ∉
      (["small", "medium", "large", "very_large"] : List String) := by
  decide

/-- Claim C2 (amended): for every farm-size label offered by the form, the
derived category is in the set containing small, medium, large and very
(the first token of the very-large label is very, not very_large); the
derived experience level is in the set containing beginner, intermediate
and experienced, as claimed. -/
theorem profile_categories (lb : String) :
    (lb ∈ farmSizeLabels →
      pySplitFirstLower lb ∈ (["small", "medium", "large", "very"] : List String)) ∧
    (lb ∈ experienceLabels →
      pySplitFirstLower lb ∈
        (["beginner", "intermediate", "experienced"] : List String)) := by
  constructor
  · intro h
    simp only [farmSizeLabels, List.mem_cons, List.not_mem_nil, or_false] at h
    rcases h with rfl | rfl | rfl | rfl <;> decide
  · intro h
    simp only [experienceLabels, List.mem_cons, List.not_mem_nil, or_false] at h
    rcases h with rfl | rfl | rfl <;> decide

/-- Witness for claim C2's amended theorem at the very-large label. -/
theorem profile_categories_witness :
    pySplitFirstLower "Very Large (200+ acres)" ∈
      (["small", "medium", "large", "very"] : List String) :=
  (profile_categories "Very Large (200+ acres)").1 (by decide)

/-- Claim C3, counterexample: deleting a record absent from the collection
is not a no-op returning the collection; Python list.remove raises
ValueError there, modelled as none. -/
theorem deleteRecommendation_cex :
    listRemove ([] : List Recommendation)
        ⟨"crop_planner", "Crop Recommendations for June", "plant corn",
          "2025-06-01"⟩ = none ∧
    listRemove ([] : List Recommendation)
        ⟨"crop_planner", "Crop Recommendations for June", "plant corn",
          "2025-06-01"⟩ ≠ some [] := by
  decide

/-- Claim C3 (amended): deletion removes exactly the first
structurally-equal occurrence of the record when one is present; when no
structurally-equal record is present it raises ValueError (modelled as
none) rather than being a silent no-op. The history page only ever passes a
record drawn from the collection itself, so the raising branch is not
reached from the UI. -/
theorem deleteRecommendation_semantics (l l1 l2 : List Recommendation)
    (r : Recommendation) :
    (r ∉ l → listRemove l r = none) ∧
    (l = l1 ++ r :: l2 → r ∉ l1 → listRemove l r = some (l1 ++ l2)) := by
  constructor
  · exact listRemove_of_not_mem l r
  · intro hl h1
    subst hl
    exact listRemove_first l1 l2 r h1

/-- Witness for claim C3's amended theorem: deleting a duplicated record
removes only its first occurrence, and deleting an absent record raises. -/
theorem deleteRecommendation_semantics_witness :
    listRemove
        [(⟨"soil_optimizer", "Soil Health Analysis", "add compost", "t0"⟩ :
            Recommendation),
          ⟨"crop_planner", "Crop Recommendations for June", "plant corn", "t1"⟩,
          ⟨"crop_planner", "Crop Recommendations for June", "plant corn", "t1"⟩]
        ⟨"crop_planner", "Crop Recommendations for June", "plant corn", "t1"⟩ =
      some
        [⟨"soil_optimizer", "Soil Health Analysis", "add compost", "t0"⟩,
          ⟨"crop_planner", "Crop Recommendations for June", "plant corn", "t1"⟩] ∧
    listRemove
        [(⟨"soil_optimizer", "Soil Health Analysis", "add compost", "t0"⟩ :
            Recommendation)]
        ⟨"crop_planner", "Crop Recommendations for June", "plant corn", "t1"⟩ =
      none := by
  constructor
  · exact (deleteRecommendation_semantics _
      [⟨"soil_optimizer", "Soil Health Analysis", "add compost", "t0"⟩]
      [⟨"crop_planner", "Crop Recommendations for June", "plant corn", "t1"⟩]
      ⟨"crop_planner", "Crop Recommendations for June", "plant corn", "t1"⟩).2
      rfl (by decide)
  · exact (deleteRecommendation_semantics
      [⟨"soil_optimizer", "Soil Health Analysis", "add compost", "t0"⟩] [] []
      ⟨"crop_planner", "Crop Recommendations for June", "plant corn", "t1"⟩).1
      (by decide)

/-- Claim C4, counterexample: a completion request that succeeds with empty
content (some empty string, so the request did not fail) leaves the user
message with no assistant message after it, contradicting the claim that a
successful request is always answered by exactly one assistant message. -/
theorem chat_pairing_cex :
    (some "" : Option String).isSome = true ∧
    chatStep [] "hello" (some "") = [⟨"user", "hello"⟩] := by
  decide

/-- Claim C4 (amended): one chat submission appends the user message, then
exactly one assistant message when the completion succeeds with non-empty
content, and nothing more when the request fails or the content is empty;
in every case the transcript grows only by these well-formed entries, never
by an error or partial assistant entry. -/
theorem chat_pairing (h : List ChatMessage) (input : String)
    (result : Option String) :
    (result = none → chatStep h input result = h ++ [⟨"user", input⟩]) ∧
    (result = some "" → chatStep h input result = h ++ [⟨"user", input⟩]) ∧
    (∀ r, result = some r → r ≠ "" →
      chatStep h input result = h ++ [⟨"user", input⟩, ⟨"assistant", r⟩]) ∧
    (chatStep h input result = h ++ [⟨"user", input⟩] ∨
      ∃ r, r ≠ "" ∧
        chatStep h input result = h ++ [⟨"user", input⟩, ⟨"assistant", r⟩]) := by
  refine ⟨?_, ?_, ?_, ?_⟩
  · intro hr
    subst hr
    rfl
  · intro hr
    subst hr
    simp [chatStep]
  · intro r hr hne
    subst hr
    simp [chatStep, hne]
  · cases result with
    | none => exact Or.inl rfl
    | some r =>
      by_cases hr : r = ""
      · subst hr
        exact Or.inl (by simp [chatStep])
      · exact Or.inr ⟨r, hr, by simp [chatStep, hr]⟩

/-- Witness for claim C4's amended theorem at a concrete exchange. -/
theorem chat_pairing_witness :
    chatStep [] "how to rotate crops" (some "rotate yearly") =
      [⟨"user", "how to rotate crops"⟩, ⟨"assistant", "rotate yearly"⟩] := by
  have h := (chat_pairing [] "how to rotate crops" (some "rotate yearly")).2.2.1
    "rotate yearly" rfl (by decide)
  simpa using h

/-- Claim C5: from any session state on the settings page with a profile
present, sign-out clears the profile, returns to the welcome page, and
leaves the recommendation collection and the chat transcript exactly
unchanged. -/
theorem signOut_frame (s : SessionState) (p : Profile)
    (hpage : s.current_page = Page.settings) (_hp : s.profile = some p) :
    (step s Action.signOut).profile = none ∧
    (step s Action.signOut).current_page = Page.welcome ∧
    (step s Action.signOut).recommendations = s.recommendations ∧
    (step s Action.signOut).chat_history = s.chat_history := by
  simp [step, hpage]

/-- Witness for claim C5 at a concrete session state. -/
theorem signOut_frame_witness :
    (step
        ⟨some ⟨"Ann", "Austin", "small", "Corn", "beginner", "t0"⟩,
          [⟨"crop_planner", "Crop Recommendations for June", "plant corn", "t1"⟩],
          [⟨"user", "hi"⟩, ⟨"assistant", "hello"⟩],
          some ⟨26, 60, "clear sky", "01d"⟩, Page.settings⟩
        Action.signOut).profile = none ∧
    (step
        ⟨some ⟨"Ann", "Austin", "small", "Corn", "beginner", "t0"⟩,
          [⟨"crop_planner", "Crop Recommendations for June", "plant corn", "t1"⟩],
          [⟨"user", "hi"⟩, ⟨"assistant", "hello"⟩],
          some ⟨26, 60, "clear sky", "01d"⟩, Page.settings⟩
        Action.signOut).current_page = Page.welcome := by
  have h := signOut_frame
    ⟨some ⟨"Ann", "Austin", "small", "Corn", "beginner", "t0"⟩,
      [⟨"crop_planner", "Crop Recommendations for June", "plant corn", "t1"⟩],
      [⟨"user", "hi"⟩, ⟨"assistant", "hello"⟩],
      some ⟨26, 60, "clear sky", "01d"⟩, Page.settings⟩
    ⟨"Ann", "Austin", "small", "Corn", "beginner", "t0"⟩ rfl rfl
  exact ⟨h.1, h.2.1⟩

/-- Claim C6: once the cached snapshot is populated, the dashboard weather
block returns the identical cached snapshot, keeps the cache unchanged, and
performs no external fetch, whatever the oracle fetch result would have
been. -/
theorem weather_memoized (p : Profile) (fetch : Option WeatherSnapshot)
    (w : WeatherSnapshot) (hl : p.location ≠ "") :
    dashboardWeather (some p) (some w) fetch = (some w, some w, false) := by
  simp [dashboardWeather, hl]

/-- Witness for claim C6 at a concrete profile and snapshot. -/
theorem weather_memoized_witness :
    dashboardWeather (some ⟨"Ann", "Austin", "small", "Corn", "beginner", "t0"⟩)
        (some ⟨26, 60, "clear sky", "01d"⟩) (some ⟨12, 80, "rain", "10d"⟩) =
      (some ⟨26, 60, "clear sky", "01d"⟩, some ⟨26, 60, "clear sky", "01d"⟩,
        false) :=
  weather_memoized ⟨"Ann", "Austin", "small", "Corn", "beginner", "t0"⟩
    (some ⟨12, 80, "rain", "10d"⟩) ⟨26, 60, "clear sky", "01d"⟩ (by decide)

/-- Claim C7: the weather fetch is a total function into an optional
snapshot (it never raises): it returns none when the geocoding request
fails, none immediately when the geocoding search yields zero results, none
when the weather request fails or its payload lacks a weather entry, and on
success a snapshot whose temperature is the Python rounding of the reported
temperature (always a nearest integer, distance at most one half), whose
humidity is passed through unchanged, and whose description and icon are
captured verbatim. -/
theorem fetch_weather_total (wreq : GeoPoint → Option WeatherResponse) :
    fetch_weather none wreq = none ∧
    fetch_weather (some []) wreq = none ∧
    (∀ g gs, wreq g = none → fetch_weather (some (g :: gs)) wreq = none) ∧
    (∀ g gs w, wreq g = some w → w.weather = [] →
      fetch_weather (some (g :: gs)) wreq = none) ∧
    (∀ g gs w cond conds, wreq g = some w → w.weather = cond :: conds →
      fetch_weather (some (g :: gs)) wreq =
        some ⟨pyRound w.main.temp, w.main.humidity, cond.description,
          cond.icon⟩) ∧
    (∀ q : ℚ, |(pyRound q : ℚ) - q| ≤ 1/2) := by
  refine ⟨rfl, rfl, ?_, ?_, ?_, pyRound_nearest⟩
  · intro g gs hg
    simp [fetch_weather, hg]
  · intro g gs w hg hw
    simp [fetch_weather, hg, hw]
  · intro g gs w cond conds hg hw
    simp [fetch_weather, hg, hw]

/-- Weather oracle used by claim C7's witness: reports 25.5 degrees and 60
percent humidity everywhere. -/
def demoWreq : GeoPoint → Option WeatherResponse :=
  fun _ => some ⟨⟨51/2, 60⟩, [⟨"clear sky", "01d"⟩]⟩

/-- Witness for claim C7 at a concrete oracle: the failure branch, the
success branch, and the concrete rounding (25.5 rounds to 26). -/
theorem fetch_weather_total_witness :
    fetch_weather none demoWreq = none ∧
    fetch_weather (some [⟨30, -97⟩]) demoWreq =
      some ⟨pyRound (51/2), 60, "clear sky", "01d"⟩ ∧
    pyRound (51/2) = 26 := by
  obtain ⟨h1, _, _, _, h5, _⟩ := fetch_weather_total demoWreq
  refine ⟨h1, h5 ⟨30, -97⟩ [] ⟨⟨51/2, 60⟩, [⟨"clear sky", "01d"⟩]⟩
    ⟨"clear sky", "01d"⟩ [] rfl rfl, ?_⟩
  have hf : ⌊(51/2 : ℚ)⌋ = 25 := by
    rw [Int.floor_eq_iff]
    norm_num
  unfold pyRound
  rw [hf]
  norm_num

/-- Claim C8: every completion request carries temperature 0.7 and
max_tokens 2048, and its message list is exactly one system message (the
fixed farming-assistant instruction) followed by one user message; on
success the gateway returns the first choice's message content verbatim,
and a failed call produces no result. -/
theorem call_openai_contract (prompt : String) :
    (openaiRequest prompt).temperature = 7/10 ∧
    (openaiRequest prompt).max_tokens = 2048 ∧
    (openaiRequest prompt).messages =
      [⟨"system", systemInstruction⟩, ⟨"user", prompt⟩] ∧
    (∀ c cs, call_openai (some ⟨c :: cs⟩) = some c.message.content) ∧
    call_openai none = none :=
  ⟨rfl, rfl, rfl, fun _ _ => rfl, rfl⟩

/-- One step preserves the profile-presence invariant: when the profile is
absent afterwards, the page afterwards is welcome or profile setup. -/
theorem step_profile_page_inv (s : SessionState) (a : Action)
    (ih : s.profile = none →
      s.current_page = Page.welcome ∨ s.current_page = Page.profile_setup) :
    (step s a).profile = none →
    (step s a).current_page = Page.welcome ∨
      (step s a).current_page = Page.profile_setup := by
  cases a <;>
    (simp only [step]
     repeat' split
     all_goals intro hp
     all_goals simp_all)

/-- In every reachable session state, an absent profile forces the page to
be welcome or profile setup. -/
theorem reachable_profile_page {s : SessionState} (h : Reachable s) :
    s.profile = none →
    s.current_page = Page.welcome ∨ s.current_page = Page.profile_setup := by
  induction h with
  | init => exact fun _ => Or.inl rfl
  | next s a _ ih => exact step_profile_page_inv s a ih

/-- Claim C9: in every reachable session state, if the profile is absent
then the current page is welcome or profile setup; consequently whenever the
current page is one of the advisory pages that read profile fields without a
presence check (crop planner, soil optimizer, pest identifier), the profile
is present. -/
theorem advisory_requires_profile (s : SessionState) (h : Reachable s) :
    (s.profile = none →
      s.current_page = Page.welcome ∨ s.current_page = Page.profile_setup) ∧
    ((s.current_page = Page.crop_planner ∨
        s.current_page = Page.soil_optimizer ∨
        s.current_page = Page.pest_identifier) → s.profile.isSome) := by
  have inv := reachable_profile_page h
  refine ⟨inv, ?_⟩
  intro hpage
  cases ho : s.profile with
  | some _ => rfl
  | none =>
    rcases inv ho with h1 | h1 <;>
      rcases hpage with h2 | h2 | h2 <;> simp_all

/-- Witness for claim C9 at the concrete reachable state after pressing get
started in the initial state. -/
theorem advisory_requires_profile_witness :
    ((step initialState Action.getStarted).profile = none →
      (step initialState Action.getStarted).current_page = Page.welcome ∨
        (step initialState Action.getStarted).current_page =
          Page.profile_setup) ∧
    (((step initialState Action.getStarted).current_page = Page.crop_planner ∨
        (step initialState Action.getStarted).current_page =
          Page.soil_optimizer ∨
        (step initialState Action.getStarted).current_page =
          Page.pest_identifier) →
      (step initialState Action.getStarted).profile.isSome) :=
  advisory_requires_profile (step initialState Action.getStarted)
    (Reachable.next initialState Action.getStarted Reachable.init)

/-- Claim C10: the cached weather snapshot survives sign-out and the
creation of a new profile with any location: after sign-out, get-started and
a valid profile submission, the cache still holds the previous snapshot, and
rendering the dashboard returns that snapshot without performing any
external fetch, leaving the state unchanged whatever the oracle fetch
result would have been. -/
theorem signOut_preserves_weather (s s3 : SessionState) (w : WeatherSnapshot)
    (n l fs c e t : String)
    (hpage : s.current_page = Page.settings) (hw : s.weather_data = some w)
    (hn : n ≠ "") (hl : l ≠ "")
    (hs3 : s3 = step (step (step s Action.signOut) Action.getStarted)
      (Action.submitProfile n l fs c e t)) :
    (step s Action.signOut).weather_data = some w ∧
    s3.weather_data = some w ∧
    s3.current_page = Page.dashboard ∧
    (∀ fetch, step s3 (Action.dashWeather fetch) = s3 ∧
      (dashboardWeather s3.profile s3.weather_data fetch).1 = some w ∧
      (dashboardWeather s3.profile s3.weather_data fetch).2.2 = false) := by
  subst hs3
  have h1 : step s Action.signOut =
      { s with profile := none, current_page := Page.welcome } := by
    simp [step, hpage]
  have h2 : step { s with profile := none, current_page := Page.welcome }
      Action.getStarted =
      { s with profile := none, current_page := Page.profile_setup } := by
    simp [step]
  have hcp : createProfile n l fs c e t =
      some ⟨n, l, pySplitFirstLower fs, c, pySplitFirstLower e, t⟩ := by
    simp [createProfile, hn, hl]
  have h3 : step { s with profile := none, current_page := Page.profile_setup }
      (Action.submitProfile n l fs c e t) =
      { s with
        profile := some ⟨n, l, pySplitFirstLower fs, c, pySplitFirstLower e, t⟩,
        current_page := Page.dashboard } := by
    simp [step, hcp]
  rw [h1, h2, h3]
  refine ⟨hw, hw, rfl, ?_⟩
  intro fetch
  have hdw : dashboardWeather
      (some ⟨n, l, pySplitFirstLower fs, c, pySplitFirstLower e, t⟩)
      s.weather_data fetch = (some w, some w, false) := by
    rw [hw]
    simp [dashboardWeather, hl]
  refine ⟨?_, ?_, ?_⟩
  · simp [step, dashboardWeather, hl, hw]
  · simp [dashboardWeather, hl, hw]
  · simp [dashboardWeather, hl, hw]

/-- Witness for claim C10 at a concrete session: the cached snapshot of the
first profile is still cached after sign-out and a second profile creation
with a different location. -/
theorem signOut_preserves_weather_witness :
    (step (step (step
          ⟨some ⟨"Ann", "Austin", "small", "Corn", "beginner", "t0"⟩, [], [],
            some ⟨26, 60, "clear sky", "01d"⟩, Page.settings⟩
          Action.signOut) Action.getStarted)
        (Action.submitProfile "Bob" "Paris" "Medium (5-50 acres)" "Wheat"
          "Beginner (0-2 years)" "t1")).weather_data =
      some ⟨26, 60, "clear sky", "01d"⟩ := by
  have h := signOut_preserves_weather
    ⟨some ⟨"Ann", "Austin", "small", "Corn", "beginner", "t0"⟩, [], [],
      some ⟨26, 60, "clear sky", "01d"⟩, Page.settings⟩
    (step (step (step
        ⟨some ⟨"Ann", "Austin", "small", "Corn", "beginner", "t0"⟩, [], [],
          some ⟨26, 60, "clear sky", "01d"⟩, Page.settings⟩
        Action.signOut) Action.getStarted)
      (Action.submitProfile "Bob" "Paris" "Medium (5-50 acres)" "Wheat"
        "Beginner (0-2 years)" "t1"))
    ⟨26, 60, "clear sky", "01d"⟩ "Bob" "Paris" "Medium (5-50 acres)" "Wheat"
    "Beginner (0-2 years)" "t1" rfl rfl (by decide) (by decide) rfl
  exact h.2.1

end SmartFarm
